import Mathlib

/- Shallow embedding of src/main.py of codeintel-code-complexity-analyzer.

   The program is a CLI wrapper around the external radon library: it reads a
   file, optionally strips top-level Python statements of the forms
   "import X" and "from X import Y" from the parsed syntax tree, re-renders the
   tree, delegates complexity and raw-metrics analysis to the library, and
   prints formatted results.  External collaborators (the Python ast module
   parse/unparse and the radon analyzers) are modelled as an abstract
   `Externals` record of functions; the file system is a partial map from
   paths to contents.  Exceptions are modelled with `Except PyExc`; stdout and
   the log stream are modelled as lists. -/

namespace CodeIntel

/-- Log levels used by the program (`logging.error`, `logging.info`). -/
inductive LogLevel where
  | info
  | error
  deriving DecidableEq, Repr

/-- One log record: level and message (timestamps belong to rendering, not to
the record; `logging.basicConfig` format is `asctime - levelname - message`). -/
structure LogEntry where
  level : LogLevel
  msg : String
  deriving DecidableEq, Repr

/-- Exceptions that the analysis stage of main.py can raise and catches:
`FileNotFoundError`, `SyntaxError`, and any other `Exception` (carrying its
string rendering). -/
inductive PyExc where
  | fileNotFound
  | syntaxError (msg : String)
  | otherExc (msg : String)
  deriving DecidableEq, Repr

/-- A top-level Python statement as classified by the loop at main.py lines
60-64: an `ast.Import` node (`import X`), an `ast.ImportFrom` node
(`from X import Y`), or any other statement (carried opaquely). -/
inductive Stmt where
  | importStmt (names : List String)
  | importFrom (module : String) (names : List String)
  | other (payload : String)
  deriving DecidableEq, Repr

/-- A parsed module: `ast.parse` returns a tree whose `body` is the list of
top-level statements. -/
structure Module where
  body : List Stmt
  deriving DecidableEq, Repr

/-- One result record from `radon.complexity.cc_visit`: a named code block
with complexity score and start/end line numbers. -/
structure ComplexityEntry where
  name : String
  complexity : Nat
  lineno : Nat
  endline : Nat
  deriving DecidableEq, Repr

/-- The record returned by `radon.raw.analyze`, with the six fields that
`calculate_raw_metrics` extracts. -/
structure RawMetrics where
  sloc : Nat
  lloc : Nat
  comments : Nat
  multi : Nat
  blank : Nat
  single_comments : Nat
  deriving DecidableEq, Repr

/-- The external collaborators of main.py, treated as black boxes:
`ast.parse` (raises on bad syntax), `ast.unparse`, `radon.complexity.cc_visit`
and `radon.raw.analyze` (each may raise). -/
structure Externals where
  parse : String → Except PyExc Module
  unparse : Module → String
  ccVisit : String → Except PyExc (List ComplexityEntry)
  rawAnalyze : String → Except PyExc RawMetrics

deriving instance DecidableEq for Except

/-- The file system: a path is mapped to its contents, or to `none` when
opening it raises `FileNotFoundError`. -/
abbrev FS := String → Option String

/-- The parsed command-line arguments produced by `setup_argparse`:
`filepath`, `--threshold` (an `int`, possibly non-positive), `--report-raw`
and `--include-imports`. -/
structure Args where
  filepath : String
  threshold : Int
  report_raw : Bool
  include_imports : Bool
  deriving DecidableEq, Repr

/-- Models `setup_argparse` (main.py lines 12-38): the three options carry
their argparse defaults, in particular `--threshold` defaults to 10 when
unspecified; `--report-raw` and `--include-imports` are `store_true` flags
defaulting to false when absent. -/
def setup_argparse (filepath : String) (threshold : Option Int)
    (report_raw : Bool) (include_imports : Bool) : Args :=
  Args.mk filepath (threshold.getD 10) report_raw include_imports

/-- Models `open(filepath).read()`: a missing path raises
`FileNotFoundError`. -/
def readFile (fs : FS) (filepath : String) : Except PyExc String :=
  match fs filepath with
  | some code => Except.ok code
  | none => Except.error PyExc.fileNotFound

/-- Is this top-level node removed by the stripping loop?  Mirrors
`isinstance(node, (ast.Import, ast.ImportFrom))` at main.py line 62. -/
def isImportNode : Stmt → Bool
  | Stmt.importStmt _ => true
  | Stmt.importFrom _ _ => true
  | Stmt.other _ => false

/-- The loop at main.py lines 60-64: build `new_body` by appending every
node of `tree.body` that is not an Import or ImportFrom node. -/
def stripImports (body : List Stmt) : List Stmt :=
  body.foldl
    (fun new_body node =>
      if !(isImportNode node) then new_body ++ [node] else new_body)
    []

/-- The conditional at main.py lines 57-65: with `include_imports` the code is
left unchanged; otherwise the code is parsed (`SyntaxError` propagates to the
enclosing handler), its top-level body is filtered by `stripImports`, and the
modified tree is re-rendered with `ast.unparse`. -/
def stripSource (ext : Externals) (include_imports : Bool) (code : String) :
    Except PyExc String :=
  if include_imports then Except.ok code
  else
    match ext.parse code with
    | Except.error e => Except.error e
    | Except.ok tree => Except.ok (ext.unparse (Module.mk (stripImports tree.body)))

/-- The tuple built for each result at main.py line 68. -/
def resultTuple (res : ComplexityEntry) : String × Nat × Nat × Nat :=
  (res.name, res.complexity, res.lineno, res.endline)

/-- The body of the `try` block of `calculate_cyclomatic_complexity`
(main.py lines 53-68): read the file, optionally strip top-level imports and
re-render, run `cc_visit`, and collect `(name, complexity, lineno, endline)`
tuples. -/
def ccBody (ext : Externals) (fs : FS) (filepath : String)
    (include_imports : Bool) : Except PyExc (List (String × Nat × Nat × Nat)) := do
  let code ← readFile fs filepath
  let code2 ← stripSource ext include_imports code
  let results ← ext.ccVisit code2
  pure (results.map resultTuple)

/-- The log entry produced by the `except` clauses of
`calculate_cyclomatic_complexity` (main.py lines 70-78). -/
def ccErrorLog (filepath : String) : PyExc → LogEntry
  | PyExc.fileNotFound => LogEntry.mk LogLevel.error (s!"File not found: {filepath}")
  | PyExc.syntaxError e => LogEntry.mk LogLevel.error (s!"Syntax error in {filepath}: {e}")
  | PyExc.otherExc e => LogEntry.mk LogLevel.error (s!"An unexpected error occurred: {e}")

/-- Models `calculate_cyclomatic_complexity` (main.py lines 41-78): on success
the result tuples with no log output; on any exception an empty list plus one
error log entry. -/
def calculate_cyclomatic_complexity (ext : Externals) (fs : FS)
    (filepath : String) (include_imports : Bool) :
    List (String × Nat × Nat × Nat) × List LogEntry :=
  match ccBody ext fs filepath include_imports with
  | Except.ok rs => (rs, [])
  | Except.error e => ([], [ccErrorLog filepath e])

/-- The body of the `try` block of `calculate_raw_metrics` (main.py lines
91-102): read the file and run `radon.raw.analyze` on the original text. -/
def rawBody (ext : Externals) (fs : FS) (filepath : String) :
    Except PyExc RawMetrics := do
  let code ← readFile fs filepath
  ext.rawAnalyze code

/-- The log entry produced by the `except` clauses of `calculate_raw_metrics`
(main.py lines 103-108): only `FileNotFoundError` is matched specially; a
`SyntaxError` from the analyzer falls into the generic `Exception` clause. -/
def rawErrorLog (filepath : String) : PyExc → LogEntry
  | PyExc.fileNotFound => LogEntry.mk LogLevel.error (s!"File not found: {filepath}")
  | PyExc.syntaxError e => LogEntry.mk LogLevel.error (s!"An unexpected error occurred: {e}")
  | PyExc.otherExc e => LogEntry.mk LogLevel.error (s!"An unexpected error occurred: {e}")

/-- Models `calculate_raw_metrics` (main.py lines 81-108): on success the
metrics record (`some`, the non-empty dict) with no log output; on any
exception the empty dict (`none`) plus one error log entry. -/
def calculate_raw_metrics (ext : Externals) (fs : FS) (filepath : String) :
    Option RawMetrics × List LogEntry :=
  match rawBody ext fs filepath with
  | Except.ok m => (some m, [])
  | Except.error e => (none, [rawErrorLog filepath e])

/-- The header printed at main.py line 124 (its f-string ends in a newline
of its own on top of the one `print` appends). -/
def headerLine (filepath : String) : String :=
  s!"Code Complexity Analysis for {filepath}:\n"

/-- The per-entry line printed at main.py line 126. -/
def entryLine (name : String) (complexity lineno endline : Nat) : String :=
  s!"  - {name} (lines {lineno}-{endline}): Complexity = {complexity}"

/-- The warning printed at main.py line 128. -/
def warnLine (threshold : Int) : String :=
  s!"    Warning: Complexity exceeds threshold ({threshold})!"

/-- The lines printed for one complexity entry (main.py lines 126-128): the
entry line, then the warning exactly when `complexity > args.threshold`. -/
def entryLines (threshold : Int) (name : String)
    (complexity lineno endline : Nat) : List String :=
  entryLine name complexity lineno endline ::
    (if (complexity : Int) > threshold then [warnLine threshold] else [])

/-- The complexity section of stdout (main.py lines 123-129): nothing when
the result list is empty (falsy), else the header, the entry lines in order,
and a trailing blank print. -/
def ccReportLines (threshold : Int) (filepath : String)
    (results : List (String × Nat × Nat × Nat)) : List String :=
  if results.isEmpty then []
  else
    headerLine filepath ::
      (results.map (fun r => entryLines threshold r.1 r.2.1 r.2.2.1 r.2.2.2)).flatten
      ++ ["\n"]

/-- The lines printed for the raw-metrics dict, in its insertion order
(main.py lines 95-102 and 135-136). -/
def rawMetricLines : RawMetrics → List String
  | RawMetrics.mk sloc lloc comments multi blank single_comments =>
    [s!"  - sloc: {sloc}", s!"  - lloc: {lloc}", s!"  - comments: {comments}",
     s!"  - multi: {multi}", s!"  - blank: {blank}",
     s!"  - single_comments: {single_comments}"]

/-- The raw-metrics block of stdout (main.py lines 133-137): nothing for the
empty dict (falsy), else a header, the metric lines, and a trailing blank
print. -/
def rawReportLines : Option RawMetrics → List String
  | none => []
  | some m => "Raw Code Metrics:\n" :: rawMetricLines m ++ ["\n"]

/-- The raw-metrics stage of `main` (main.py lines 131-137): only run when
`--report-raw` was given; produces its stdout lines and its log entries. -/
def rawSection (ext : Externals) (fs : FS) (a : Args) :
    List String × List LogEntry :=
  if a.report_raw then
    let rm := calculate_raw_metrics ext fs a.filepath
    (rawReportLines rm.1, rm.2)
  else ([], [])

/-- The diagnostic logged at main.py line 118 before `sys.exit(1)`. -/
def thresholdErrLog : LogEntry :=
  LogEntry.mk LogLevel.error "Complexity threshold must be a positive integer."

/-- The informational message logged at main.py line 140. -/
def noResultsLog : LogEntry :=
  LogEntry.mk LogLevel.info "No results to display."

/-- The observable outcome of one run: exit code, the strings passed to
`print` in order, and the log records in order. -/
structure RunResult where
  exitCode : Nat
  stdout : List String
  logs : List LogEntry
  deriving DecidableEq, Repr

/-- Models `main` (main.py lines 110-140): validate the threshold (exit code 1
when non-positive, before any analysis), run the complexity stage and print
its section, run the raw stage when requested, and log the no-results notice
when the complexity list is empty and `--report-raw` is absent. -/
def main (ext : Externals) (fs : FS) (a : Args) : RunResult :=
  if a.threshold ≤ 0 then
    RunResult.mk 1 [] [thresholdErrLog]
  else
    let cc := calculate_cyclomatic_complexity ext fs a.filepath a.include_imports
    let raw := rawSection ext fs a
    let noRes := if cc.1.isEmpty && !a.report_raw then [noResultsLog] else []
    RunResult.mk 0 (ccReportLines a.threshold a.filepath cc.1 ++ raw.1)
      (cc.2 ++ raw.2 ++ noRes)

/-! Concrete instances used to witness the general theorems and to exhibit
counterexamples. -/

/-- A minimal concrete instance of the externals: every input parses to an
empty module, both analyzers always succeed with an empty result. -/
def extTriv : Externals :=
  Externals.mk (fun _ => Except.ok (Module.mk []))
    (fun _ => "")
    (fun _ => Except.ok [])
    (fun _ => Except.ok (RawMetrics.mk 0 0 0 0 0 0))

/-- A concrete instance of the externals on which re-rendering reproduces the
source exactly: every text parses to a single opaque statement carrying the
text, and unparsing that statement yields the text back; the complexity
analyzer reports no blocks. -/
def idealExt : Externals :=
  Externals.mk
    (fun code => Except.ok (Module.mk [Stmt.other code]))
    (fun m =>
      match m.body with
      | [Stmt.other code] => code
      | _ => "")
    (fun _ => Except.ok [])
    (fun _ => Except.ok (RawMetrics.mk 0 0 0 0 0 0))

/-- The empty file system: every path raises `FileNotFoundError`. -/
def fsNone : FS := fun _ => none

/-! Helper lemmas about the stripping loop. -/

/-- The appending loop of main.py lines 60-64, started from any accumulator,
computes the accumulator followed by the non-import filter of the body. -/
theorem stripImports_foldl (acc : List Stmt) (body : List Stmt) :
    body.foldl
      (fun new_body node =>
        if !(isImportNode node) then new_body ++ [node] else new_body)
      acc
      = acc ++ body.filter (fun s => !(isImportNode s)) := by
  induction body generalizing acc with
  | nil => simp
  | cons hd tl ih =>
    rw [List.foldl_cons, List.filter_cons]
    cases hi : isImportNode hd
    · rw [if_pos (show (!false) = true from rfl),
        if_pos (show (!false) = true from rfl), ih (acc ++ [hd])]
      simp
    · rw [if_neg (show ¬((!true) = true) from by decide),
        if_neg (show ¬((!true) = true) from by decide)]
      exact ih acc

/-- The stripping loop is the order-preserving filter that drops exactly
the Import and ImportFrom nodes. -/
theorem stripImports_eq_filter (body : List Stmt) :
    stripImports body = body.filter (fun s => !(isImportNode s)) := by
  simpa [stripImports] using stripImports_foldl [] body

/-- C1: with includeImports false and parseable source, the stripper removes
exactly the top-level Import and ImportFrom statements (both forms) from the
module body, preserves the order of the remaining top-level statements, and
re-renders the modified tree; with includeImports true the source text
reaches the complexity analyzer unchanged. -/
theorem C1_import_stripper (ext : Externals) (code : String) (tree : Module)
    (hparse : ext.parse code = Except.ok tree) :
    (∀ body : List Stmt,
        stripImports body = body.filter (fun s => !(isImportNode s))) ∧
    (∀ body : List Stmt, (stripImports body).Sublist body) ∧
    (∀ ns, isImportNode (Stmt.importStmt ns) = true) ∧
    (∀ m ns, isImportNode (Stmt.importFrom m ns) = true) ∧
    (∀ p, isImportNode (Stmt.other p) = false) ∧
    stripSource ext false code
      = Except.ok (ext.unparse (Module.mk (stripImports tree.body))) ∧
    (∀ s, stripSource ext true s = Except.ok s) ∧
    (∀ (fs : FS) (fp : String),
        ccBody ext fs fp true
          = (readFile fs fp).bind
              (fun c => Except.map (List.map resultTuple) (ext.ccVisit c))) := by
  refine ⟨stripImports_eq_filter, ?_, fun _ => rfl, fun _ _ => rfl, fun _ => rfl,
      ?_, fun _ => rfl, ?_⟩
  · intro body
    rw [stripImports_eq_filter]
    exact List.filter_sublist body
  · simp [stripSource, hparse]
  · intro fs fp
    unfold ccBody
    cases hr : readFile fs fp with
    | error e => rfl
    | ok c =>
      cases hv : ext.ccVisit c with
      | error e => rfl
      | ok rs => rfl

/-- Witness instantiating C1 on a concrete parseable source. -/
theorem C1_import_stripper_witness :
    idealExt.parse "x = 1" = Except.ok (Module.mk [Stmt.other "x = 1"]) ∧
    ((∀ body : List Stmt,
        stripImports body = body.filter (fun s => !(isImportNode s))) ∧
     (∀ body : List Stmt, (stripImports body).Sublist body) ∧
     (∀ ns, isImportNode (Stmt.importStmt ns) = true) ∧
     (∀ m ns, isImportNode (Stmt.importFrom m ns) = true) ∧
     (∀ p, isImportNode (Stmt.other p) = false) ∧
     stripSource idealExt false "x = 1"
       = Except.ok
           (idealExt.unparse
             (Module.mk (stripImports [Stmt.other "x = 1"]))) ∧
     (∀ s, stripSource idealExt true s = Except.ok s) ∧
     (∀ (fs : FS) (fp : String),
        ccBody idealExt fs fp true
          = (readFile fs fp).bind
              (fun c =>
                Except.map (List.map resultTuple) (idealExt.ccVisit c)))) :=
  ⟨rfl,
   C1_import_stripper idealExt "x = 1" (Module.mk [Stmt.other "x = 1"]) rfl⟩

/-- C2: with a valid threshold, every analysis-stage exception is caught at
its point of use and turned into an empty result plus one error log entry,
and the process still finishes with exit code 0. -/
theorem C2_analysis_errors_recovered (ext : Externals) (fs : FS) (a : Args)
    (ht : 0 < a.threshold) :
    (∀ e, ccBody ext fs a.filepath a.include_imports = Except.error e →
        calculate_cyclomatic_complexity ext fs a.filepath a.include_imports
          = ([], [ccErrorLog a.filepath e])) ∧
    (∀ e, rawBody ext fs a.filepath = Except.error e →
        calculate_raw_metrics ext fs a.filepath
          = (none, [rawErrorLog a.filepath e])) ∧
    (main ext fs a).exitCode = 0 := by
  refine ⟨fun e he => by simp [calculate_cyclomatic_complexity, he],
          fun e he => by simp [calculate_raw_metrics, he], ?_⟩
  have h : ¬ a.threshold ≤ 0 := by omega
  simp [main, h]

/-- Witness instantiating C2 on a missing file with the default threshold. -/
theorem C2_analysis_errors_recovered_witness :
    (0 : Int) < 10 ∧
    ((∀ e, ccBody extTriv fsNone "missing.py" false = Except.error e →
        calculate_cyclomatic_complexity extTriv fsNone "missing.py" false
          = ([], [ccErrorLog "missing.py" e])) ∧
     (∀ e, rawBody extTriv fsNone "missing.py" = Except.error e →
        calculate_raw_metrics extTriv fsNone "missing.py"
          = (none, [rawErrorLog "missing.py" e])) ∧
     (main extTriv fsNone (Args.mk "missing.py" 10 false false)).exitCode
        = 0) :=
  ⟨by decide,
   C2_analysis_errors_recovered extTriv fsNone
     (Args.mk "missing.py" 10 false false) (by decide)⟩

/-- C3: the reporter appends a warning line to a printed complexity entry
exactly when the complexity strictly exceeds the threshold; at complexity
equal to the threshold there is no warning, at threshold plus one there
is. -/
theorem C3_warning_strict_threshold (t : Int) (name : String)
    (c lineno endline : Nat) :
    (entryLines t name c lineno endline
        = [entryLine name c lineno endline, warnLine t] ↔ (c : Int) > t) ∧
    (entryLines t name c lineno endline
        = [entryLine name c lineno endline] ↔ ¬ ((c : Int) > t)) ∧
    ((c : Int) = t → entryLines t name c lineno endline
        = [entryLine name c lineno endline]) ∧
    ((c : Int) = t + 1 → entryLines t name c lineno endline
        = [entryLine name c lineno endline, warnLine t]) := by
  by_cases h : (c : Int) > t
  · refine ⟨by simp [entryLines, h], by simp [entryLines, h], ?_, ?_⟩
    · intro he
      exact absurd h (by omega)
    · intro _
      simp [entryLines, h]
  · refine ⟨by simp [entryLines, h], by simp [entryLines, h], ?_, ?_⟩
    · intro _
      simp [entryLines, h]
    · intro he
      exact absurd (show (c : Int) > t by omega) h

/-- Witness instantiating C3 at threshold 3 with complexities 4, 3 and
boundary facts. -/
theorem C3_warning_strict_threshold_witness :
    (entryLines 3 "f" 4 1 2 = [entryLine "f" 4 1 2, warnLine 3]
        ↔ ((4 : Nat) : Int) > 3) ∧
    (entryLines 3 "f" 4 1 2 = [entryLine "f" 4 1 2]
        ↔ ¬ (((4 : Nat) : Int) > 3)) ∧
    (((4 : Nat) : Int) = 3 → entryLines 3 "f" 4 1 2 = [entryLine "f" 4 1 2]) ∧
    (((4 : Nat) : Int) = 3 + 1
        → entryLines 3 "f" 4 1 2 = [entryLine "f" 4 1 2, warnLine 3]) :=
  C3_warning_strict_threshold 3 "f" 4 1 2

/-- C4: a non-positive threshold makes the run exit with code 1 after the
diagnostic log entry, with nothing printed; the run does not depend on the
externals or the file system (no analysis happens); the threshold defaults
to 10 when the option is unspecified. -/
theorem C4_threshold_validation (ext ext2 : Externals) (fs fs2 : FS)
    (a : Args) (h : a.threshold ≤ 0) :
    main ext fs a = RunResult.mk 1 [] [thresholdErrLog] ∧
    main ext fs a = main ext2 fs2 a ∧
    thresholdErrLog.level = LogLevel.error ∧
    (∀ fp rr ii, (setup_argparse fp none rr ii).threshold = 10) :=
  ⟨by simp [main, h], by simp [main, h], rfl, fun _ _ _ => rfl⟩

/-- Witness instantiating C4 at thresholds 0 and -5. -/
theorem C4_threshold_validation_witness :
    ((0 : Int) ≤ 0 ∧
      (main extTriv fsNone (Args.mk "a.py" 0 false false)
          = RunResult.mk 1 [] [thresholdErrLog] ∧
       main extTriv fsNone (Args.mk "a.py" 0 false false)
          = main idealExt fsNone (Args.mk "a.py" 0 false false) ∧
       thresholdErrLog.level = LogLevel.error ∧
       (∀ fp rr ii, (setup_argparse fp none rr ii).threshold = 10))) ∧
    ((-5 : Int) ≤ 0 ∧
      (main extTriv fsNone (Args.mk "a.py" (-5) false false)
          = RunResult.mk 1 [] [thresholdErrLog] ∧
       main extTriv fsNone (Args.mk "a.py" (-5) false false)
          = main idealExt fsNone (Args.mk "a.py" (-5) false false) ∧
       thresholdErrLog.level = LogLevel.error ∧
       (∀ fp rr ii, (setup_argparse fp none rr ii).threshold = 10))) :=
  ⟨⟨by decide,
    C4_threshold_validation extTriv idealExt fsNone fsNone
      (Args.mk "a.py" 0 false false) (by decide)⟩,
   ⟨by decide,
    C4_threshold_validation extTriv idealExt fsNone fsNone
      (Args.mk "a.py" (-5) false false) (by decide)⟩⟩

/-- C5: the raw-metrics stage always analyzes the text read from the file
itself (never the import-stripped re-rendering), and its section of the
output is the same whichever value the include-imports flag has. -/
theorem C5_raw_metrics_on_original (ext : Externals) (fs : FS) (a : Args)
    (b b2 : Bool) (ht : 0 < a.threshold) :
    rawBody ext fs a.filepath
      = (readFile fs a.filepath).bind ext.rawAnalyze ∧
    rawSection ext fs (Args.mk a.filepath a.threshold a.report_raw b)
      = rawSection ext fs (Args.mk a.filepath a.threshold a.report_raw b2) ∧
    (main ext fs (Args.mk a.filepath a.threshold a.report_raw b)).stdout
      = ccReportLines a.threshold a.filepath
          (calculate_cyclomatic_complexity ext fs a.filepath b).1
        ++ (rawSection ext fs (Args.mk a.filepath a.threshold a.report_raw b2)).1 := by
  have h : ¬ a.threshold ≤ 0 := by omega
  exact ⟨rfl, rfl, by simp [main, h, rawSection]⟩

/-- Witness instantiating C5 with the report-raw flag set and both values of
the include-imports flag. -/
theorem C5_raw_metrics_on_original_witness :
    (0 : Int) < 10 ∧
    (rawBody extTriv fsNone "a.py"
        = (readFile fsNone "a.py").bind extTriv.rawAnalyze ∧
     rawSection extTriv fsNone (Args.mk "a.py" 10 true true)
        = rawSection extTriv fsNone (Args.mk "a.py" 10 true false) ∧
     (main extTriv fsNone (Args.mk "a.py" 10 true true)).stdout
        = ccReportLines 10 "a.py"
            (calculate_cyclomatic_complexity extTriv fsNone "a.py" true).1
          ++ (rawSection extTriv fsNone (Args.mk "a.py" 10 true false)).1) :=
  ⟨by decide,
   C5_raw_metrics_on_original extTriv fsNone (Args.mk "a.py" 10 true false)
     true false (by decide)⟩

/-! A concrete instance recording observed CPython/radon behavior on one
example file, used to separate analysis of the original text from analysis
of the re-rendered text. -/

/-- The example source file: a comment line, then a two-line function. -/
def exCode : String := "# a comment\ndef f():\n    return 1"

/-- What `ast.unparse (ast.parse exCode)` produces: the comment line and
original formatting are discarded, so the function starts at line 1. -/
def exUnparsed : String := "def f():\n    return 1"

/-- The parse tree of `exCode`: one top-level non-import statement. -/
def exTree : Module := Module.mk [Stmt.other "def f"]

/-- Concrete externals recording the behavior of CPython ast and radon at
the inputs the example run uses: `exCode` parses to `exTree` (checked with
CPython 3: one FunctionDef, no imports); unparsing `exTree` gives
`exUnparsed` (checked: the comment is dropped); the complexity visitor
reports function `f` with complexity 1 at lines 2-3 of `exCode` but at
lines 1-2 of `exUnparsed` (the ast line numbers, which radon reports).
Other inputs fail; they are never reached in the example run. -/
def modelPy : Externals :=
  Externals.mk
    (fun code =>
      if code = exCode then Except.ok exTree
      else Except.error (PyExc.syntaxError "invalid syntax"))
    (fun m => if m.body = exTree.body then exUnparsed else "")
    (fun code =>
      if code = exCode then Except.ok [ComplexityEntry.mk "f" 1 2 3]
      else if code = exUnparsed then Except.ok [ComplexityEntry.mk "f" 1 1 2]
      else Except.error (PyExc.syntaxError "invalid syntax"))
    (fun _ => Except.ok (RawMetrics.mk 2 2 1 0 0 1))

/-- The file system containing just the example file. -/
def exFS : FS := fun p => if p = "ex.py" then some exCode else none

/-- A file system with one small import-free file. -/
def fsX : FS := fun p => if p = "x.py" then some "x = 1" else none

/-- Split a character list into lines at newline characters. -/
def splitLinesChars : List Char → List (List Char)
  | [] => [[]]
  | c :: rest =>
    let r := splitLinesChars rest
    if c = '\n' then [] :: r
    else
      match r with
      | [] => [[c]]
      | l :: ls => (c :: l) :: ls

/-- Find the 1-based index of the first line starting with `def ` (0 when
there is none), counting from `n`. -/
def defLineAux : List (List Char) → Nat → Nat
  | [], _ => 0
  | l :: ls, n =>
    if l.take 4 = ['d', 'e', 'f', ' '] then n else defLineAux ls (n + 1)

/-- The 1-based number of the first line of `code` that starts with
`def `. -/
def defLine (code : String) : Nat := defLineAux (splitLinesChars code.data) 1

/-- On a successful read and strip, `calculate_cyclomatic_complexity`
reduces to mapping `resultTuple` over whatever the visitor returns for the
stripped text. -/
theorem ccBody_ok (ext : Externals) (fs : FS) (fp code c2 : String)
    (ii : Bool) (hread : fs fp = some code)
    (hstrip : stripSource ext ii code = Except.ok c2) :
    ccBody ext fs fp ii
      = Except.map (List.map resultTuple) (ext.ccVisit c2) := by
  unfold ccBody
  rw [show readFile fs fp = Except.ok code from by simp [readFile, hread]]
  show (do
      let code2 ← stripSource ext ii code
      let results ← ext.ccVisit code2
      pure (results.map resultTuple))
    = Except.map (List.map resultTuple) (ext.ccVisit c2)
  rw [hstrip]
  show (do
      let results ← ext.ccVisit c2
      pure (results.map resultTuple))
    = Except.map (List.map resultTuple) (ext.ccVisit c2)
  cases hv : ext.ccVisit c2 with
  | error e => rfl
  | ok rs => rfl

/-- Counterexample to C6 as stated: `exCode` parses and contains zero
top-level import statements, yet the complexity results with includeImports
true and false differ, because with the flag off the analyzer runs on the
re-rendered source, whose line numbers differ from the original file. -/
theorem C6_counterexample :
    modelPy.parse exCode = Except.ok exTree ∧
    exTree.body.all (fun s => !(isImportNode s)) = true ∧
    exFS "ex.py" = some exCode ∧
    (calculate_cyclomatic_complexity modelPy exFS "ex.py" true).1
      ≠ (calculate_cyclomatic_complexity modelPy exFS "ex.py" false).1 := by
  refine ⟨by decide, by decide, by decide, by decide⟩

/-- C6 amended: on a parseable file with zero top-level imports the
stripping loop leaves the statement list unchanged, and the complexity
results for the two flag values coincide provided the analyzer answers the
same on the re-rendered tree as on the original text (the code re-renders
unconditionally, so without that proviso line numbers may differ). -/
theorem C6_strip_noop_without_imports (ext : Externals) (fs : FS)
    (fp code : String) (tree : Module)
    (hread : fs fp = some code)
    (hparse : ext.parse code = Except.ok tree)
    (hnoimp : ∀ s ∈ tree.body, isImportNode s = false)
    (hvisit : ext.ccVisit (ext.unparse tree) = ext.ccVisit code) :
    stripImports tree.body = tree.body ∧
    calculate_cyclomatic_complexity ext fs fp false
      = calculate_cyclomatic_complexity ext fs fp true := by
  have hstrip : stripImports tree.body = tree.body := by
    rw [stripImports_eq_filter]
    apply List.filter_eq_self.mpr
    intro s hs
    simp [hnoimp s hs]
  refine ⟨hstrip, ?_⟩
  have hs1 : stripSource ext false code = Except.ok (ext.unparse tree) := by
    simp [stripSource, hparse, hstrip]
  have h1 : ccBody ext fs fp false
      = Except.map (List.map resultTuple) (ext.ccVisit code) := by
    rw [ccBody_ok ext fs fp code (ext.unparse tree) false hread hs1, hvisit]
  have h2 : ccBody ext fs fp true
      = Except.map (List.map resultTuple) (ext.ccVisit code) :=
    ccBody_ok ext fs fp code code true hread rfl
  unfold calculate_cyclomatic_complexity
  rw [h1, h2]

/-- Witness instantiating the amended C6 on an import-free file with
externals whose re-rendering is analysis-equivalent. -/
theorem C6_strip_noop_without_imports_witness :
    fsX "x.py" = some "x = 1" ∧
    idealExt.parse "x = 1" = Except.ok (Module.mk [Stmt.other "x = 1"]) ∧
    (∀ s ∈ [Stmt.other "x = 1"], isImportNode s = false) ∧
    idealExt.ccVisit (idealExt.unparse (Module.mk [Stmt.other "x = 1"]))
      = idealExt.ccVisit "x = 1" ∧
    (stripImports [Stmt.other "x = 1"] = [Stmt.other "x = 1"] ∧
     calculate_cyclomatic_complexity idealExt fsX "x.py" false
       = calculate_cyclomatic_complexity idealExt fsX "x.py" true) :=
  ⟨by decide, rfl, by decide, rfl,
   C6_strip_noop_without_imports idealExt fsX "x.py" "x = 1"
     (Module.mk [Stmt.other "x = 1"]) (by decide) rfl (by decide) rfl⟩

/-- C9: with includeImports false the reported entries are exactly the
analyzer output on the re-rendered stripped tree, and on the concrete
example the entry for `f` is reported at lines 1-2 although the definition
sits at line 2 of the original file (line 1 of the re-rendered text). -/
theorem C9_line_numbers_from_rerendered (ext : Externals) (fs : FS)
    (fp code : String) (tree : Module) (rs : List ComplexityEntry)
    (hread : fs fp = some code)
    (hparse : ext.parse code = Except.ok tree)
    (hvisit : ext.ccVisit (ext.unparse (Module.mk (stripImports tree.body)))
      = Except.ok rs) :
    (calculate_cyclomatic_complexity ext fs fp false).1 = rs.map resultTuple ∧
    (calculate_cyclomatic_complexity modelPy exFS "ex.py" false).1
      = [("f", 1, 1, 2)] ∧
    (calculate_cyclomatic_complexity modelPy exFS "ex.py" true).1
      = [("f", 1, 2, 3)] ∧
    defLine exCode = 2 ∧
    defLine exUnparsed = 1 ∧
    exFS "ex.py" = some exCode := by
  refine ⟨?_, by decide, by decide, by decide, by decide, by decide⟩
  have hs1 : stripSource ext false code
      = Except.ok (ext.unparse (Module.mk (stripImports tree.body))) := by
    simp [stripSource, hparse]
  unfold calculate_cyclomatic_complexity
  rw [ccBody_ok ext fs fp code
    (ext.unparse (Module.mk (stripImports tree.body))) false hread hs1, hvisit]
  rfl

/-- Witness instantiating C9 on the concrete example run itself. -/
theorem C9_line_numbers_from_rerendered_witness :
    exFS "ex.py" = some exCode ∧
    modelPy.parse exCode = Except.ok exTree ∧
    modelPy.ccVisit (modelPy.unparse (Module.mk (stripImports exTree.body)))
      = Except.ok [ComplexityEntry.mk "f" 1 1 2] ∧
    ((calculate_cyclomatic_complexity modelPy exFS "ex.py" false).1
        = [ComplexityEntry.mk "f" 1 1 2].map resultTuple ∧
     (calculate_cyclomatic_complexity modelPy exFS "ex.py" false).1
        = [("f", 1, 1, 2)] ∧
     (calculate_cyclomatic_complexity modelPy exFS "ex.py" true).1
        = [("f", 1, 2, 3)] ∧
     defLine exCode = 2 ∧
     defLine exUnparsed = 1 ∧
     exFS "ex.py" = some exCode) :=
  ⟨by decide, by decide, by decide,
   C9_line_numbers_from_rerendered modelPy exFS "ex.py" exCode exTree
     [ComplexityEntry.mk "f" 1 1 2] (by decide) (by decide) (by decide)⟩

/-- Every log entry of the complexity-stage handlers has level error. -/
theorem ccErrorLog_level (fp : String) (e : PyExc) :
    (ccErrorLog fp e).level = LogLevel.error := by
  cases e <;> rfl

/-- Every log entry of the raw-stage handlers has level error. -/
theorem rawErrorLog_level (fp : String) (e : PyExc) :
    (rawErrorLog fp e).level = LogLevel.error := by
  cases e <;> rfl

/-- The complexity stage never emits the informational no-results entry. -/
theorem noResultsLog_not_mem_cc (ext : Externals) (fs : FS) (fp : String)
    (ii : Bool) :
    noResultsLog ∉ (calculate_cyclomatic_complexity ext fs fp ii).2 := by
  unfold calculate_cyclomatic_complexity
  cases h : ccBody ext fs fp ii with
  | ok rs => simp
  | error e =>
    simp only [List.mem_singleton]
    intro hmem
    have h2 := congrArg LogEntry.level hmem
    rw [ccErrorLog_level] at h2
    exact absurd h2 (by decide)

/-- The raw-metrics stage never emits the informational no-results entry. -/
theorem noResultsLog_not_mem_raw (ext : Externals) (fs : FS) (a : Args) :
    noResultsLog ∉ (rawSection ext fs a).2 := by
  cases hrr : a.report_raw with
  | false => simp [rawSection, hrr]
  | true =>
    simp only [rawSection, hrr, if_true]
    unfold calculate_raw_metrics
    cases h : rawBody ext fs a.filepath with
    | ok m => simp
    | error e =>
      simp only [List.mem_singleton]
      intro hmem
      have h2 := congrArg LogEntry.level hmem
      rw [rawErrorLog_level] at h2
      exact absurd h2 (by decide)

/-- C7: with a valid threshold, the informational no-results message is
logged exactly when the complexity result list is empty and the report-raw
flag is off. -/
theorem C7_no_results_message (ext : Externals) (fs : FS) (a : Args)
    (ht : 0 < a.threshold) :
    noResultsLog ∈ (main ext fs a).logs ↔
      ((calculate_cyclomatic_complexity ext fs a.filepath a.include_imports).1
          = [] ∧ a.report_raw = false) := by
  have h : ¬ a.threshold ≤ 0 := by omega
  have h1 := noResultsLog_not_mem_cc ext fs a.filepath a.include_imports
  have h2 := noResultsLog_not_mem_raw ext fs a
  cases hrr : a.report_raw with
  | false =>
    cases hcc :
        (calculate_cyclomatic_complexity ext fs a.filepath a.include_imports).1 with
    | nil => simp [main, h, hrr, hcc, h1, h2]
    | cons x xs => simp [main, h, hrr, hcc, h1, h2]
  | true => simp [main, h, hrr, h1, h2]

/-- Witness instantiating C7 on a missing file without report-raw. -/
theorem C7_no_results_message_witness :
    (0 : Int) < 10 ∧
    (noResultsLog
        ∈ (main extTriv fsNone (Args.mk "missing.py" 10 false false)).logs ↔
      ((calculate_cyclomatic_complexity extTriv fsNone "missing.py" false).1
          = [] ∧ false = false)) :=
  ⟨by decide,
   C7_no_results_message extTriv fsNone (Args.mk "missing.py" 10 false false)
     (by decide)⟩

/-- C8: the run is a deterministic function of the externals, the file
contents and the arguments: two runs over pointwise-equal file systems with
equal arguments produce the same exit code, the same stdout and the same
log records. -/
theorem C8_deterministic (ext : Externals) (fs fs2 : FS) (a a2 : Args)
    (hfs : ∀ p, fs p = fs2 p) (ha : a = a2) :
    main ext fs a = main ext fs2 a2 := by
  have h : fs = fs2 := funext hfs
  rw [h, ha]

/-- Witness instantiating C8 on two identical runs. -/
theorem C8_deterministic_witness :
    (∀ p, fsNone p = fsNone p) ∧
    main extTriv fsNone (Args.mk "a.py" 10 false false)
      = main extTriv fsNone (Args.mk "a.py" 10 false false) :=
  ⟨fun _ => rfl,
   C8_deterministic extTriv fsNone fsNone (Args.mk "a.py" 10 false false)
     (Args.mk "a.py" 10 false false) (fun _ => rfl) rfl⟩

/-- C10: a failed analysis and a successful analysis of a file with no
analyzable blocks return the same empty list, the printed complexity
section is identical (empty) in the two cases for every threshold, and the
two cases differ only in the log stream. -/
theorem C10_empty_result_ambiguity (ext ext2 : Externals) (fs fs2 : FS)
    (fp fp2 : String) (ii ii2 : Bool) (e : PyExc)
    (herr : ccBody ext fs fp ii = Except.error e)
    (hok : ccBody ext2 fs2 fp2 ii2 = Except.ok []) :
    (calculate_cyclomatic_complexity ext fs fp ii).1 = [] ∧
    (calculate_cyclomatic_complexity ext2 fs2 fp2 ii2).1 = [] ∧
    (∀ t : Int,
      ccReportLines t fp (calculate_cyclomatic_complexity ext fs fp ii).1
        = ccReportLines t fp2
            (calculate_cyclomatic_complexity ext2 fs2 fp2 ii2).1) ∧
    (calculate_cyclomatic_complexity ext fs fp ii).2 = [ccErrorLog fp e] ∧
    (calculate_cyclomatic_complexity ext2 fs2 fp2 ii2).2 = [] := by
  have h1 : calculate_cyclomatic_complexity ext fs fp ii
      = ([], [ccErrorLog fp e]) := by
    simp [calculate_cyclomatic_complexity, herr]
  have h2 : calculate_cyclomatic_complexity ext2 fs2 fp2 ii2 = ([], []) := by
    simp [calculate_cyclomatic_complexity, hok]
  rw [h1, h2]
  exact ⟨rfl, rfl, fun t => rfl, rfl, rfl⟩

/-- Witness instantiating C10 with a missing file on the failing side and
an import-free file with no code blocks on the succeeding side. -/
theorem C10_empty_result_ambiguity_witness :
    ccBody extTriv fsNone "missing.py" false
      = Except.error PyExc.fileNotFound ∧
    ccBody extTriv fsX "x.py" true = Except.ok [] ∧
    ((calculate_cyclomatic_complexity extTriv fsNone "missing.py" false).1
        = [] ∧
     (calculate_cyclomatic_complexity extTriv fsX "x.py" true).1 = [] ∧
     (∀ t : Int,
       ccReportLines t "missing.py"
           (calculate_cyclomatic_complexity extTriv fsNone "missing.py" false).1
         = ccReportLines t "x.py"
             (calculate_cyclomatic_complexity extTriv fsX "x.py" true).1) ∧
     (calculate_cyclomatic_complexity extTriv fsNone "missing.py" false).2
        = [ccErrorLog "missing.py" PyExc.fileNotFound] ∧
     (calculate_cyclomatic_complexity extTriv fsX "x.py" true).2 = []) :=
  ⟨by decide, by decide,
   C10_empty_result_ambiguity extTriv extTriv fsNone fsX "missing.py" "x.py"
     false true PyExc.fileNotFound (by decide) (by decide)⟩

end CodeIntel
